import Mathlib

/-!
Verification of the fixed-format RPG analyzer/converter (`mcp-server.py`) and
the bounded tool-orchestration loop (`client.py`).

The Python source is shallowly embedded: each Python function is translated
to an executable Lean definition that keeps the source's name (module-level
helpers keep their snake_case names).  Python strings are Lean `String`s;
Python slices `s[a:b]` are modelled by `pySlice` (clamped, character-based);
`str.strip()`, `str.upper()`, `str.split`, `str.join` and `str.startswith`
are modelled by the structurally recursive `pyStrip`, `pyUpper`,
`pySplitLines`, `pyJoin` and `pyStartsWith` over the character lists (the
inputs in scope are ASCII, where these agree with Python's semantics).
Python float arithmetic appears only in constant expressions
(`max_tokens * 4 * 0.8` and comparisons against `self.max_tokens * 0.8`);
for the concrete constants used by the source (100000, 10000, 128000) those
float computations are exact and equal the natural-number forms used here.
-/

namespace RPG

/-- Python slice `s[a:b]` for `0 ≤ a ≤ b`, clamped at the string's end. -/
def pySlice (s : String) (a b : Nat) : String :=
  String.mk ((s.data.drop a).take (b - a))

/-- The ASCII whitespace characters removed by Python `str.strip()`
(Unicode whitespace, irrelevant to the fixed-column inputs, is not
modelled). -/
def isPySpace (c : Char) : Bool :=
  c == ' ' || c == '\t' || c == '\n' || c == '\r' || c == '\x0b' || c == '\x0c'

/-- Python `str.strip()`. -/
def pyStrip (s : String) : String :=
  String.mk (((s.data.dropWhile isPySpace).reverse.dropWhile isPySpace).reverse)

/-- Python `str.upper()` on ASCII text. -/
def pyUpper (s : String) : String :=
  String.mk (s.data.map Char.toUpper)

def splitLinesAux (acc : List Char) : List Char → List String
  | [] => [String.mk acc.reverse]
  | c :: cs =>
      if c = '\n' then String.mk acc.reverse :: splitLinesAux [] cs
      else splitLinesAux (c :: acc) cs

/-- Python `str.split('\n')`. -/
def pySplitLines (s : String) : List String :=
  splitLinesAux [] s.data

/-- Python `sep.join(parts)`. -/
def pyJoin (sep : String) : List String → String
  | [] => ""
  | [s] => s
  | s :: rest => s ++ sep ++ pyJoin sep rest

/-- Python `str.startswith(pre)`. -/
def pyStartsWith (s pre : String) : Bool :=
  pre.data.isPrefixOf s.data

/-! ## Structural analyzer (`RPGConverter.analyze_traditional_rpg`, mcp-server.py:152-248)

The `analysis` dictionary is embedded as the structure `Analysis`.  The
`keywords` field of control-spec entries is produced by the regex helper
`_extract_h_spec_keywords`; no claim depends on it and it is omitted from
the embedding (noted here for the record).  The `procedures` list is
initialised empty and never touched by the source; it is kept for fidelity. -/

structure ControlSpec where
  line : Nat
  content : String
deriving DecidableEq, Repr

structure FileSpec where
  line : Nat
  content : String
  filename : String
  file_type : String
  device : String
deriving DecidableEq, Repr

structure DefinitionSpec where
  line : Nat
  content : String
  name : String
  spec_type : String
deriving DecidableEq, Repr

structure InputSpec where
  line : Nat
  content : String
deriving DecidableEq, Repr

structure CalcSpec where
  line : Nat
  content : String
  indicators : String
  operation : String
  result : String
deriving DecidableEq, Repr

structure OutputSpec where
  line : Nat
  content : String
deriving DecidableEq, Repr

structure Analysis where
  control_specs : List ControlSpec
  file_specs : List FileSpec
  definition_specs : List DefinitionSpec
  input_specs : List InputSpec
  calculation_specs : List CalcSpec
  output_specs : List OutputSpec
  indicators : List String
  subroutines : List String
  procedures : List String
  fixed_format_lines : Nat
  conversion_complexity : String
deriving DecidableEq, Repr

def initialAnalysis : Analysis :=
  { control_specs := []
    file_specs := []
    definition_specs := []
    input_specs := []
    calculation_specs := []
    output_specs := []
    indicators := []
    subroutines := []
    procedures := []
    fixed_format_lines := 0
    conversion_complexity := "medium" }

/-- The record-type dispatch of the analyzer's loop body
(mcp-server.py:180-221): `record_type = line[5:6]`, then one `elif` branch
per tag appending the entry with its fixed-offset fields. -/
def recordDispatch (a : Analysis) (line_num : Nat) (line : String) : Analysis :=
  let record_type := pySlice line 5 6
  if record_type = "H" then
    { a with control_specs := a.control_specs ++ [⟨line_num, line⟩] }
  else if record_type = "F" then
    { a with file_specs := a.file_specs ++
        [⟨line_num, line, pyStrip (pySlice line 7 15), pySlice line 15 16,
          pyStrip (pySlice line 35 42)⟩] }
  else if record_type = "D" then
    { a with definition_specs := a.definition_specs ++
        [⟨line_num, line, pyStrip (pySlice line 7 21), pySlice line 24 25⟩] }
  else if record_type = "I" then
    { a with input_specs := a.input_specs ++ [⟨line_num, line⟩] }
  else if record_type = "C" then
    { a with calculation_specs := a.calculation_specs ++
        [⟨line_num, line, pyStrip (pySlice line 7 11), pyStrip (pySlice line 26 36),
          pyStrip (pySlice line 50 63)⟩] }
  else if record_type = "O" then
    { a with output_specs := a.output_specs ++ [⟨line_num, line⟩] }
  else a

/-- Indicator collection (mcp-server.py:223-226).  Note that in the source
this runs for every line of length at least 6, whatever its record type. -/
def indicatorStep (acc : List String) (line : String) : List String :=
  let indicators := pyStrip (pySlice line 7 11)
  if indicators ≠ "" ∧ indicators ∉ acc then acc ++ [indicators] else acc

/-- Subroutine detection (mcp-server.py:228-232): also runs for every line
of length at least 6, whatever its record type. -/
def subroutineStep (acc : List String) (line : String) : List String :=
  let operation := pyUpper (pyStrip (pySlice line 26 36))
  if operation = "BEGSR" then acc ++ [pyStrip (pySlice line 50 63)] else acc

/-- One iteration of the analyzer's `for line_num, line in enumerate(lines, 1)`
loop (mcp-server.py:172-232). -/
def processLine (a : Analysis) (line_num : Nat) (line : String) : Analysis :=
  if line.length < 6 then a
  else
    let a := { a with fixed_format_lines := a.fixed_format_lines + 1 }
    let a := recordDispatch a line_num line
    let a := { a with indicators := indicatorStep a.indicators line }
    { a with subroutines := subroutineStep a.subroutines line }

def analyzeLines (a : Analysis) (line_num : Nat) : List String → Analysis
  | [] => a
  | l :: ls => analyzeLines (processLine a line_num l) (line_num + 1) ls

/-- Complexity scoring formula (mcp-server.py:235-239), written the way the
spec states it: 2 per file entry, 1 per calculation entry, 3 per distinct
condition marker, 2 per subroutine. -/
def complexityScore (files calcs inds subs : Nat) : Nat :=
  2 * files + calcs + 3 * inds + 2 * subs

/-- Complexity thresholds (mcp-server.py:241-246). -/
def classifyComplexity (score : Nat) : String :=
  if score < 10 then "low" else if score < 30 then "medium" else "high"

/-- `RPGConverter.analyze_traditional_rpg` (mcp-server.py:152-248). -/
def analyze_traditional_rpg (code : String) : Analysis :=
  let a := analyzeLines initialAnalysis 1 (pySplitLines code)
  let complexity_score :=
    a.file_specs.length * 2 + a.calculation_specs.length +
      a.indicators.length * 3 + a.subroutines.length * 2
  { a with conversion_complexity := classifyComplexity complexity_score }

/-! ## Free-form converter (`RPGConverter.convert_to_freeform`, mcp-server.py:269-410)

The `try` block's accumulating state (the `converted_lines` list and the
result's `conversion_notes` / `warnings` / `standards_applied` lists) is the
structure `GenOut`.  The `except` handler is `convertCore`, which takes the
generation outcome as an `Except` value: an `error` carries the exception
text together with the partial state accumulated before the failure, exactly
as the Python handler leaves the partially filled result dictionary. -/

structure GenOut where
  lines : List String
  notes : List String
  warnings : List String
  standards_applied : List String
deriving DecidableEq, Repr

/-- File-declaration emission for one file spec (mcp-server.py:292-301):
only file types upper-casing to I, O or U produce a line; I and U are
unconditionally tagged KEYED, O is not; anything else produces nothing. -/
def fileSpecLines (fs : FileSpec) : List String :=
  if pyUpper fs.file_type = "I" then
    ["DCL-F " ++ fs.filename ++ " DISK(*EXT) USAGE(*INPUT) KEYED;"]
  else if pyUpper fs.file_type = "O" then
    ["DCL-F " ++ fs.filename ++ " DISK(*EXT) USAGE(*OUTPUT);"]
  else if pyUpper fs.file_type = "U" then
    ["DCL-F " ++ fs.filename ++ " DISK(*EXT) USAGE(*UPDATE) KEYED;"]
  else []

/-- Translation of one calculation spec (mcp-server.py:317-376), returning
the emitted lines, the conversion notes and the warnings it contributes. -/
def convertCalcSpec (cs : CalcSpec) : List String × List String × List String :=
  let operation := pyUpper cs.operation
  let result := cs.result
  let indicators := cs.indicators
  let ls :=
    if operation = "BEGSR" then
      ["", "DCL-PROC " ++ result ++ ";"]
    else if operation = "ENDSR" then
      ["END-PROC;"]
    else if operation = "EXSR" then
      ["    " ++ result ++ "();"]
    else if operation ∈ (["ADD", "SUB", "MULT", "DIV"] : List String) then
      if result ≠ "" then
        let op_symbol :=
          if operation = "ADD" then "+"
          else if operation = "SUB" then "-"
          else if operation = "MULT" then "*"
          else if operation = "DIV" then "/"
          else "+"
        let factor1 := pyStrip (pySlice cs.content 12 25)
        let factor2 := pyStrip (pySlice cs.content 26 40)
        if factor1 ≠ "" ∧ factor2 ≠ "" then
          ["    " ++ result ++ " = " ++ factor1 ++ " " ++ op_symbol ++ " " ++
            factor2 ++ ";"]
        else if factor2 ≠ "" then
          ["    " ++ result ++ " " ++ op_symbol ++ "= " ++ factor2 ++ ";"]
        else []
      else []
    else if operation = "CHAIN" then
      let key_field := pyStrip (pySlice cs.content 12 25)
      ["    CHAIN " ++ key_field ++ " " ++ result ++ ";",
       "    IF NOT %FOUND(" ++ result ++ ");",
       "        // Handle record not found",
       "    ENDIF;"]
    else if operation ∈ (["IF", "ELSEIF", "ELSE", "ENDIF"] : List String) then
      let condition := pyStrip (pySlice cs.content 12 49)
      if operation = "IF" then ["    IF " ++ condition ++ ";"]
      else if operation = "ELSEIF" then ["    ELSEIF " ++ condition ++ ";"]
      else if operation = "ELSE" then ["    ELSE;"]
      else ["    ENDIF;"]
    else []
  let notes :=
    if operation = "BEGSR" then
      ["Converted subroutine " ++ result ++ " to procedure"]
    else []
  let warnings :=
    if indicators ≠ "" ∧ indicators ∉ (["", "  "] : List String) then
      ["Indicator " ++ indicators ++ " used - may need manual conversion"]
    else []
  (ls, notes, warnings)

/-- The indentation pass of `_apply_coding_standards` on one line
(mcp-server.py:398-403): a non-blank line not starting with `**`, `DCL-`
or four spaces is re-indented and one applied-standard note is recorded. -/
def applyStandardsLine (line : String) : String × List String :=
  if pyStrip line ≠ "" ∧ ¬ pyStartsWith line "**" ∧ ¬ pyStartsWith line "DCL-" ∧
      ¬ pyStartsWith line "    " ∧ pyStrip line ≠ "" then
    ("    " ++ pyStrip line, ["Applied indentation standard"])
  else (line, [])

/-- `RPGConverter._apply_coding_standards` (mcp-server.py:392-410).  The
Python function mutates `lines` in place and returns the applied-standards
list; here it returns the mutated lines together with that list.  The
`standards` argument is only tested for truthiness by the caller and is
ignored inside, as in the source. -/
def apply_coding_standards (lines : List String) : List String × List String :=
  (lines.map (fun l => (applyStandardsLine l).1),
   lines.flatMap (fun l => (applyStandardsLine l).2))

/-- File-spec loop of the `try` block (mcp-server.py:292-303): each file
spec appends its declaration lines (possibly none) and exactly one note. -/
def convertFileSpecs (st : GenOut) (fss : List FileSpec) : GenOut :=
  fss.foldl
    (fun st fs =>
      { st with
        lines := st.lines ++ fileSpecLines fs,
        notes := st.notes ++ ["Converted F-spec for " ++ fs.filename] })
    st

/-- Definition-spec loop of the `try` block (mcp-server.py:306-311). -/
def convertDefSpecs (st : GenOut) (dss : List DefinitionSpec) : GenOut :=
  dss.foldl
    (fun st ds =>
      if ds.name ≠ "" then
        { st with
          lines := st.lines ++
            ["DCL-S " ++ ds.name ++ " CHAR(50); // TODO: Verify data type"],
          notes := st.notes ++ ["Converted D-spec for " ++ ds.name] }
      else st)
    st

/-- Calculation-spec loop of the `try` block (mcp-server.py:317-376). -/
def convertCalcSpecs (st : GenOut) (css : List CalcSpec) : GenOut :=
  css.foldl
    (fun st cs =>
      let r := convertCalcSpec cs
      { st with
        lines := st.lines ++ r.1,
        notes := st.notes ++ r.2.1,
        warnings := st.warnings ++ r.2.2 })
    st

/-- The body of the `try` block of `convert_to_freeform`
(mcp-server.py:283-384).  `standards` models the optional `standards`
dictionary: `none` stands for `None` or an empty (falsy) dictionary. -/
def generateBody (analysis : Analysis) (standards : Option Unit) : GenOut :=
  let st : GenOut := ⟨[], [], [], []⟩
  let st :=
    if analysis.control_specs ≠ [] then
      { st with
        lines := ["**CTL-OPT DFTACTGRP(*NO) ACTGRP(*CALLER);"],
        notes := ["Converted H-spec to **CTL-OPT"] }
    else st
  let st := convertFileSpecs st analysis.file_specs
  let st := convertDefSpecs st analysis.definition_specs
  let st := { st with lines := st.lines ++ ["", "// Main processing logic"] }
  let st := convertCalcSpecs st analysis.calculation_specs
  match standards with
  | some _ =>
      let r := apply_coding_standards st.lines
      { st with lines := r.1, standards_applied := r.2 }
  | none => st

structure ConversionResult where
  original_code : String
  converted_code : String
  conversion_notes : List String
  standards_applied : List String
  warnings : List String
  success : Bool
  error : Option String
deriving DecidableEq, Repr

/-- The result assembly and `except` handler of `convert_to_freeform`
(mcp-server.py:274-390).  `original_code` is set to the input before the
`try` block and never touched afterwards; on failure `success` is set to
`false`, `error` to the exception text, `converted_code` keeps its initial
empty value, and the partially accumulated notes/warnings survive. -/
def convertCore (code : String) (body : Except (String × GenOut) GenOut) :
    ConversionResult :=
  match body with
  | .ok g =>
      { original_code := code
        converted_code := pyJoin "\n" g.lines
        conversion_notes := g.notes
        standards_applied := g.standards_applied
        warnings := g.warnings
        success := true
        error := none }
  | .error (e, g) =>
      { original_code := code
        converted_code := ""
        conversion_notes := g.notes
        standards_applied := g.standards_applied
        warnings := g.warnings
        success := false
        error := some e }

/-- `RPGConverter.convert_to_freeform` (mcp-server.py:269-390).  The Lean
translation of the `try` block is total, so the happy path always applies;
`convertCore` carries the handler for the exceptional path. -/
def convert_to_freeform (code : String) (standards : Option Unit) :
    ConversionResult :=
  convertCore code (Except.ok (generateBody (analyze_traditional_rpg code) standards))

/-! ## Traditional-block state machine of the code-block extractor
(`CodeAnalyzer.extract_code_blocks`, mcp-server.py:473-505)

Only the traditional fixed-format block detection of
`extract_code_blocks` is embedded (the independent SQL and free-form regex
pattern scans at mcp-server.py:420-471 contribute separate entries and are
not involved in any claim).  Each emitted block is kept as its list of
lines; the source joins them with a newline into the dictionary entry. -/

def tradTagChars : List Char :=
  ['H', 'F', 'D', 'I', 'C', 'O', 'h', 'f', 'd', 'i', 'c', 'o']

/-- The guard `len(line) >= 6 and line[5:6] in 'HFDICOhfdico'`
(mcp-server.py:479).  Note both cases are accepted here, unlike the
analyzer's record-type dispatch. -/
def isTradTagged (line : String) : Bool :=
  if line.length < 6 then false
  else
    match (pySlice line 5 6).data with
    | [ch] => tradTagChars.contains ch
    | _ => false

/-- State of the traditional-block scan: emitted blocks, current block,
`in_traditional_block` flag. -/
def tradStep (st : List (List String) × List String × Bool) (line : String) :
    List (List String) × List String × Bool :=
  let blocks := st.1
  let block := st.2.1
  let inBlock := st.2.2
  if isTradTagged line then
    if inBlock then (blocks, block ++ [line], true) else (blocks, [line], true)
  else if inBlock ∧ pyStrip line = "" then st
  else if inBlock then
    (if block ≠ [] then blocks ++ [block] else blocks, [], false)
  else st

/-- The traditional-block state machine over the split lines
(mcp-server.py:474-505), including the end-of-input flush. -/
def runTradMachine (ls : List String) : List (List String) :=
  let st := ls.foldl tradStep ([], [], false)
  if st.2.1 ≠ [] then st.1 ++ [st.2.1] else st.1

/-- The traditional-block portion of `CodeAnalyzer.extract_code_blocks`. -/
def extract_traditional_blocks (text : String) : List (List String) :=
  runTradMachine (pySplitLines text)

/-! ## Specification-level definitions used by the theorems -/

/-- Ordinal of a complexity class in the order low < medium < high. -/
def classOrd (c : String) : Nat :=
  if c = "low" then 0 else if c = "medium" then 1 else 2

/-- Per-line indicator collection of the analyzer: the guard of the loop
body composed with `indicatorStep`. -/
def collectIndicatorsLine (acc : List String) (line : String) : List String :=
  if line.length < 6 then acc else indicatorStep acc line

/-- Spec-level restatement of the analyzer's condition-marker collection:
the first-occurrence-ordered distinct non-blank trimmed `[7,11)` fields of
all lines of length at least 6, whatever their record type. -/
def collectIndicators (code : String) : List String :=
  (pySplitLines code).foldl collectIndicatorsLine []

end RPG

namespace Client

/-! ## Tool-orchestration loop (`RPGConversionClient.chat_completion`, client.py:188-273)

Transcript messages are the structure `Msg`; an assistant message carries
its requested tool calls, a tool message carries the call id it answers.
The injected model capability is a function from the transcript to a
`ModelMsg` (the `response.choices[0].message` of the source); the injected
tool capability (`json.loads` of the arguments followed by
`self.mcp_client.call_tool`) is a function returning `Except`: an `error`
models any exception raised while parsing arguments or invoking the tool,
carrying the exception text.  The loop itself is the fuel recursion
`chatLoop` over `roundStep`, one fuel unit per `while` iteration. -/

structure ToolCall where
  id : String
  name : String
  arguments : String
deriving DecidableEq, Repr

inductive Role where
  | system
  | user
  | assistant
  | tool
deriving DecidableEq, Repr

structure Msg where
  role : Role
  content : String
  tool_calls : List ToolCall
  tool_call_id : Option String
deriving DecidableEq, Repr

structure ModelMsg where
  content : String
  tool_calls : List ToolCall
deriving DecidableEq, Repr

/-- `RPGConversionClient._count_tokens` (client.py:126-128). -/
def count_tokens (text : String) : Nat := text.length / 4

/-- `self.max_tokens = 128000` (client.py:106). -/
def max_tokens : Nat := 128000

/-- `RPGConversionClient._truncate_content` (client.py:130-139).  The
Python cut point `int(max_tokens * 4 * 0.8)` equals `maxTok * 4 * 8 / 10`
for both limits the source passes (100000 and 10000). -/
def truncate_content (content : String) (maxTok : Nat) : String :=
  if count_tokens content ≤ maxTok then content
  else
    String.mk (content.data.take (maxTok * 4 * 8 / 10)) ++
      "\n\n[Content truncated due to length limitations...]"

/-- The per-message truncation applied to the initial messages before the
loop (client.py:198-200), with the default limit of 100000 tokens. -/
def truncateAll (msgs : List Msg) : List Msg :=
  msgs.map (fun m => { m with content := truncate_content m.content 100000 })

/-- The assistant message recording the requested tool calls
(client.py:219-233). -/
def asstMsg (m : ModelMsg) : Msg :=
  ⟨Role.assistant, m.content, m.tool_calls, none⟩

/-- One tool call execution (client.py:236-263): on success the result is
truncated to the 10000-token tool budget; on any failure the tool message
carries the error text instead.  Either way exactly one tool message with
the call's id is appended. -/
def toolResultMsg (runTool : String → String → Except String String)
    (tc : ToolCall) : Msg :=
  match runTool tc.name tc.arguments with
  | .ok result => ⟨Role.tool, truncate_content result 10000, [], some tc.id⟩
  | .error e => ⟨Role.tool, "Error: " ++ e, [], some tc.id⟩

def toolResults (runTool : String → String → Except String String)
    (tcs : List ToolCall) : List Msg :=
  tcs.map (toolResultMsg runTool)

/-- `" ".join(msg.get("content", "") for msg in current_messages)`
(client.py:268), i.e. Python `str.join` with a single-space separator. -/
def joinContents : List Msg → String
  | [] => ""
  | [m] => m.content
  | m :: rest => m.content ++ " " ++ joinContents rest

/-- The end-of-round eviction check (client.py:267-271): when the estimated
token count of the joined transcript exceeds 80% of `max_tokens`, keep only
the last five messages (`current_messages[-5:]`). -/
def evict (msgs : List Msg) : List Msg :=
  if count_tokens (joinContents msgs) > max_tokens * 8 / 10 then
    msgs.drop (msgs.length - 5)
  else msgs

/-- One iteration of the `while` loop (client.py:202-271): call the model;
with no tool calls return its content (`Sum.inl`), otherwise append the
assistant message and the tool results, then apply the eviction check. -/
def roundStep (model : List Msg → ModelMsg)
    (runTool : String → String → Except String String)
    (msgs : List Msg) : Sum String (List Msg) :=
  let m := model msgs
  if m.tool_calls = [] then Sum.inl m.content
  else Sum.inr (evict ((msgs ++ [asstMsg m]) ++ toolResults runTool m.tool_calls))

/-- The `while tool_call_count < max_tool_calls` loop with the
post-loop sentinel return (client.py:202-273). -/
def chatLoop (model : List Msg → ModelMsg)
    (runTool : String → String → Except String String) :
    Nat → List Msg → String
  | 0, _ => "Maximum tool calls reached"
  | n + 1, msgs =>
      match roundStep model runTool msgs with
      | Sum.inl answer => answer
      | Sum.inr msgs' => chatLoop model runTool n msgs'

/-- `RPGConversionClient.chat_completion` (client.py:188-273). -/
def chat_completion (model : List Msg → ModelMsg)
    (runTool : String → String → Except String String)
    (messages : List Msg) (max_tool_calls : Nat) : String :=
  chatLoop model runTool max_tool_calls (truncateAll messages)

/-- The transcript state after `n` completed rounds of the loop, `none`
when the model stopped requesting tools before round `n`. -/
def transcriptAfterRounds (model : List Msg → ModelMsg)
    (runTool : String → String → Except String String)
    (t : List Msg) : Nat → Option (List Msg)
  | 0 => some t
  | n + 1 =>
      match transcriptAfterRounds model runTool t n with
      | some t' =>
          match roundStep model runTool t' with
          | Sum.inl _ => none
          | Sum.inr t'' => some t''
      | none => none

/-- A tool-role message is unmatched against the messages before it when no
earlier assistant message requested a tool call with its id. -/
def isUnmatchedTool (prior : List Msg) (m : Msg) : Bool :=
  m.role == Role.tool &&
    match m.tool_call_id with
    | some cid =>
        ! prior.any (fun p =>
            p.role == Role.assistant && p.tool_calls.any (fun tc => tc.id == cid))
    | none => false

def causalOkFrom (prior : List Msg) : List Msg → Bool
  | [] => true
  | m :: rest => !isUnmatchedTool prior m && causalOkFrom (prior ++ [m]) rest

/-- The causal-ordering invariant of the claim: every tool-role message's
call id is requested by some assistant message earlier in the transcript. -/
def causalOk (t : List Msg) : Bool := causalOkFrom [] t

/-! ### Concrete runs used to instantiate the theorems -/

/-- A model capability that always requests exactly one tool call. -/
def oneCallModel : List Msg → ModelMsg :=
  fun _ => ⟨"", [⟨"id1", "tool1", "args"⟩]⟩

/-- A tool capability that always succeeds with a one-character result. -/
def okTool : String → String → Except String String :=
  fun _ _ => Except.ok "r"

/-- A tool capability that fails (argument parsing or invocation) exactly
for the tool named `bad`. -/
def failingTool : String → String → Except String String :=
  fun nm _ => if nm = "bad" then Except.error "boom" else Except.ok "r"

/-- A 205000-character message body: large enough that two of them push the
transcript over the 102400-token eviction threshold, yet individually under
the 100000-token per-message truncation limit. -/
def bigX : String := String.mk (List.replicate 205000 'x')

def bigY : String := String.mk (List.replicate 205000 'y')

/-- Initial messages of the eviction run: two large user messages. -/
def cexInit : List Msg :=
  [⟨Role.user, bigX, [], none⟩, ⟨Role.user, bigY, [], none⟩]

/-- Five tool calls requested in one round. -/
def cexCalls : List ToolCall :=
  [⟨"a", "t", "x"⟩, ⟨"b", "t", "x"⟩, ⟨"c", "t", "x"⟩, ⟨"d", "t", "x"⟩,
   ⟨"e", "t", "x"⟩]

/-- A model capability that always requests the five calls of `cexCalls`. -/
def cexModel5 : List Msg → ModelMsg := fun _ => ⟨"", cexCalls⟩

/-- The transcript after appending round one's assistant message and the
five tool results, before the eviction check. -/
def cexT2 : List Msg :=
  [⟨Role.user, bigX, [], none⟩, ⟨Role.user, bigY, [], none⟩,
   ⟨Role.assistant, "", cexCalls, none⟩,
   ⟨Role.tool, "r", [], some "a"⟩, ⟨Role.tool, "r", [], some "b"⟩,
   ⟨Role.tool, "r", [], some "c"⟩, ⟨Role.tool, "r", [], some "d"⟩,
   ⟨Role.tool, "r", [], some "e"⟩]

/-- The transcript after round one's eviction: the five tool-result
messages survive, the assistant message that requested them is gone. -/
def cexBad : List Msg :=
  [⟨Role.tool, "r", [], some "a"⟩, ⟨Role.tool, "r", [], some "b"⟩,
   ⟨Role.tool, "r", [], some "c"⟩, ⟨Role.tool, "r", [], some "d"⟩,
   ⟨Role.tool, "r", [], some "e"⟩]

end Client

namespace RPG

/-! ## Lemmas about the structural analyzer -/

/-- Setting `conversion_complexity` from the inline score expression of the
source equals applying the named scoring formula. -/
theorem finalize_complexity (a : Analysis) :
    ({ a with conversion_complexity := (classifyComplexity
        (a.file_specs.length * 2 + a.calculation_specs.length +
         a.indicators.length * 3 + a.subroutines.length * 2)) } :
      Analysis).conversion_complexity =
    classifyComplexity (complexityScore a.file_specs.length
      a.calculation_specs.length a.indicators.length a.subroutines.length) := by
  show classifyComplexity _ = classifyComplexity _
  congr 1
  unfold complexityScore
  ring

/-- The analyzer's final classification is the weighted-sum formula applied
to the four counts of its own result. -/
theorem analyze_conversion_complexity (code : String) :
    (analyze_traditional_rpg code).conversion_complexity =
      classifyComplexity (complexityScore
        (analyze_traditional_rpg code).file_specs.length
        (analyze_traditional_rpg code).calculation_specs.length
        (analyze_traditional_rpg code).indicators.length
        (analyze_traditional_rpg code).subroutines.length) := by
  unfold analyze_traditional_rpg
  exact finalize_complexity (analyzeLines initialAnalysis 1 (pySplitLines code))

theorem classify_mono (s1 s2 : Nat) (h : s1 ≤ s2) :
    classOrd (classifyComplexity s1) ≤ classOrd (classifyComplexity s2) := by
  unfold classifyComplexity
  split_ifs <;> simp [classOrd] <;> omega

theorem score_mono (f c i s f2 c2 i2 s2 : Nat) (hf : f ≤ f2) (hc : c ≤ c2)
    (hi : i ≤ i2) (hs : s ≤ s2) :
    complexityScore f c i s ≤ complexityScore f2 c2 i2 s2 := by
  unfold complexityScore
  omega

/-- The record-type dispatch never touches the indicator set. -/
theorem recordDispatch_indicators (a : Analysis) (n : Nat) (line : String) :
    (recordDispatch a n line).indicators = a.indicators := by
  unfold recordDispatch
  dsimp only
  split_ifs <;> rfl

theorem processLine_indicators (a : Analysis) (n : Nat) (line : String) :
    (processLine a n line).indicators = collectIndicatorsLine a.indicators line := by
  unfold processLine collectIndicatorsLine
  split_ifs with h
  · rfl
  · show (indicatorStep (recordDispatch _ n line).indicators line) = _
    rw [recordDispatch_indicators]

theorem analyzeLines_indicators (ls : List String) :
    ∀ (a : Analysis) (n : Nat),
      (analyzeLines a n ls).indicators = ls.foldl collectIndicatorsLine a.indicators := by
  induction ls with
  | nil => intro a n; rfl
  | cons l ls ih =>
      intro a n
      show (analyzeLines (processLine a n l) (n + 1) ls).indicators = _
      rw [ih, List.foldl_cons, processLine_indicators]

theorem indicatorStep_nodup (acc : List String) (line : String)
    (h : acc.Nodup) : (indicatorStep acc line).Nodup := by
  unfold indicatorStep
  dsimp only
  split_ifs with hc
  · simp [List.nodup_append, h, hc.2]
  · exact h

theorem collectIndicatorsLine_nodup (acc : List String) (line : String)
    (h : acc.Nodup) : (collectIndicatorsLine acc line).Nodup := by
  unfold collectIndicatorsLine
  split_ifs with hc
  · exact h
  · exact indicatorStep_nodup acc line h

theorem foldl_collect_nodup (ls : List String) :
    ∀ acc : List String, acc.Nodup → (ls.foldl collectIndicatorsLine acc).Nodup := by
  induction ls with
  | nil => intro acc h; exact h
  | cons l ls ih =>
      intro acc h
      rw [List.foldl_cons]
      exact ih _ (collectIndicatorsLine_nodup acc l h)

theorem recordDispatch_F (a : Analysis) (n : Nat) (line : String)
    (hF : pySlice line 5 6 = "F") :
    recordDispatch a n line =
      { a with file_specs := a.file_specs ++
          [⟨n, line, pyStrip (pySlice line 7 15), pySlice line 15 16,
            pyStrip (pySlice line 35 42)⟩] } := by
  unfold recordDispatch
  dsimp only
  rw [hF]
  rfl

theorem recordDispatch_C (a : Analysis) (n : Nat) (line : String)
    (hC : pySlice line 5 6 = "C") :
    recordDispatch a n line =
      { a with calculation_specs := a.calculation_specs ++
          [⟨n, line, pyStrip (pySlice line 7 11), pyStrip (pySlice line 26 36),
            pyStrip (pySlice line 50 63)⟩] } := by
  unfold recordDispatch
  dsimp only
  rw [hC]
  rfl

theorem recordDispatch_other (a : Analysis) (n : Nat) (line : String)
    (h : pySlice line 5 6 ∉ (["H", "F", "D", "I", "C", "O"] : List String)) :
    recordDispatch a n line = a := by
  unfold recordDispatch
  dsimp only
  simp only [List.mem_cons, List.not_mem_nil, or_false, not_or] at h
  rw [if_neg h.1, if_neg h.2.1, if_neg h.2.2.1, if_neg h.2.2.2.1,
    if_neg h.2.2.2.2.1, if_neg h.2.2.2.2.2]

theorem processLine_F (a : Analysis) (n : Nat) (line : String)
    (hlen : 6 ≤ line.length) (hF : pySlice line 5 6 = "F") :
    (processLine a n line).file_specs = a.file_specs ++
      [⟨n, line, pyStrip (pySlice line 7 15), pySlice line 15 16,
        pyStrip (pySlice line 35 42)⟩] := by
  unfold processLine
  rw [if_neg (by omega : ¬ line.length < 6)]
  dsimp only
  rw [recordDispatch_F _ _ _ hF]

theorem processLine_C (a : Analysis) (n : Nat) (line : String)
    (hlen : 6 ≤ line.length) (hC : pySlice line 5 6 = "C") :
    (processLine a n line).calculation_specs = a.calculation_specs ++
      [⟨n, line, pyStrip (pySlice line 7 11), pyStrip (pySlice line 26 36),
        pyStrip (pySlice line 50 63)⟩] := by
  unfold processLine
  rw [if_neg (by omega : ¬ line.length < 6)]
  dsimp only
  rw [recordDispatch_C _ _ _ hC]

/-- A line whose record-type character matches none of the six uppercase
tags leaves every per-tag entry sequence unchanged. -/
theorem processLine_other (a : Analysis) (n : Nat) (line : String)
    (hlen : 6 ≤ line.length)
    (h : pySlice line 5 6 ∉ (["H", "F", "D", "I", "C", "O"] : List String)) :
    (processLine a n line).control_specs = a.control_specs ∧
    (processLine a n line).file_specs = a.file_specs ∧
    (processLine a n line).definition_specs = a.definition_specs ∧
    (processLine a n line).input_specs = a.input_specs ∧
    (processLine a n line).calculation_specs = a.calculation_specs ∧
    (processLine a n line).output_specs = a.output_specs := by
  unfold processLine
  rw [if_neg (by omega : ¬ line.length < 6)]
  dsimp only
  rw [recordDispatch_other _ _ _ h]
  exact ⟨rfl, rfl, rfl, rfl, rfl, rfl⟩

/-- The file-spec loop of the converter appends exactly the declaration
lines of `fileSpecLines` for each entry, in order. -/
theorem convertFileSpecs_lines (fss : List FileSpec) :
    ∀ st : GenOut,
      (convertFileSpecs st fss).lines = st.lines ++ fss.flatMap fileSpecLines := by
  induction fss with
  | nil => intro st; simp [convertFileSpecs]
  | cons fs fss ih =>
      intro st
      show (convertFileSpecs { st with
          lines := st.lines ++ fileSpecLines fs,
          notes := st.notes ++ ["Converted F-spec for " ++ fs.filename] } fss).lines = _
      rw [ih]
      simp

/-- The file-spec loop records exactly one conversion note per entry. -/
theorem convertFileSpecs_notes (fss : List FileSpec) :
    ∀ st : GenOut,
      (convertFileSpecs st fss).notes =
        st.notes ++ fss.map (fun fs => "Converted F-spec for " ++ fs.filename) := by
  induction fss with
  | nil => intro st; simp [convertFileSpecs]
  | cons fs fss ih =>
      intro st
      show (convertFileSpecs { st with
          lines := st.lines ++ fileSpecLines fs,
          notes := st.notes ++ ["Converted F-spec for " ++ fs.filename] } fss).notes = _
      rw [ih]
      simp

/-! ## Claim theorems (analyzer and converter) -/

/-- Claim C1: for every input source text the analyzer's complexity class
is the weighted sum 2×(file entries) + 1×(calculation entries) +
3×(distinct condition markers) + 2×(subroutines) classified by the
thresholds <10 low, <30 medium, else high; and the counts (5, 40, 12, 3)
score 92 and classify as high. -/
theorem claim_C1 :
    (∀ code : String,
      (analyze_traditional_rpg code).conversion_complexity =
        classifyComplexity (complexityScore
          (analyze_traditional_rpg code).file_specs.length
          (analyze_traditional_rpg code).calculation_specs.length
          (analyze_traditional_rpg code).indicators.length
          (analyze_traditional_rpg code).subroutines.length)) ∧
    complexityScore 5 40 12 3 = 92 ∧
    classifyComplexity (complexityScore 5 40 12 3) = "high" :=
  ⟨analyze_conversion_complexity, rfl, rfl⟩

/-- Claim C2: a line of length at least 6 classified as a file entry has
filename the trimmed slice [7,15), file-type code the slice [15,16) and
device the trimmed slice [35,42); a line classified as a calculation entry
has condition-marker field the trimmed slice [7,11), operation mnemonic the
trimmed slice [26,36) and result field the trimmed slice [50,63). -/
theorem claim_C2 (a : Analysis) (n : Nat) (line : String) :
    (6 ≤ line.length → pySlice line 5 6 = "F" →
      (processLine a n line).file_specs = a.file_specs ++
        [⟨n, line, pyStrip (pySlice line 7 15), pySlice line 15 16,
          pyStrip (pySlice line 35 42)⟩]) ∧
    (6 ≤ line.length → pySlice line 5 6 = "C" →
      (processLine a n line).calculation_specs = a.calculation_specs ++
        [⟨n, line, pyStrip (pySlice line 7 11), pyStrip (pySlice line 26 36),
          pyStrip (pySlice line 50 63)⟩]) :=
  ⟨processLine_F a n line, processLine_C a n line⟩

theorem claim_C2_witness :
    ((processLine initialAnalysis 1 "     F").file_specs =
      initialAnalysis.file_specs ++
        [⟨1, "     F", pyStrip (pySlice "     F" 7 15), pySlice "     F" 15 16,
          pyStrip (pySlice "     F" 35 42)⟩]) ∧
    ((processLine initialAnalysis 2 "     C").calculation_specs =
      initialAnalysis.calculation_specs ++
        [⟨2, "     C", pyStrip (pySlice "     C" 7 11), pyStrip (pySlice "     C" 26 36),
          pyStrip (pySlice "     C" 50 63)⟩]) :=
  ⟨(claim_C2 initialAnalysis 1 "     F").1 (by decide) (by decide),
   (claim_C2 initialAnalysis 2 "     C").2 (by decide) (by decide)⟩

/-- Claim C5: on an internal failure during generation the conversion
result has success false and carries the error text, the original code
field always equals the input character for character, on the happy path
included. -/
theorem claim_C5 (code : String) (body : Except (String × GenOut) GenOut) :
    (convertCore code body).original_code = code ∧
    (∀ standards : Option Unit,
      (convert_to_freeform code standards).original_code = code) ∧
    (∀ (e : String) (g : GenOut), body = Except.error (e, g) →
      (convertCore code body).success = false ∧
      (convertCore code body).error = some e) := by
  refine ⟨?_, fun standards => rfl, ?_⟩
  · cases body with
    | ok g => rfl
    | error p => rcases p with ⟨e, g⟩; rfl
  · intro e g hbody
    subst hbody
    exact ⟨rfl, rfl⟩

theorem claim_C5_witness :
    ((convertCore "H TEST" (Except.error ("boom", (⟨[], [], [], []⟩ : GenOut)))).original_code
        = "H TEST") ∧
    ((convertCore "H TEST" (Except.error ("boom", (⟨[], [], [], []⟩ : GenOut)))).success
        = false) ∧
    ((convertCore "H TEST" (Except.error ("boom", (⟨[], [], [], []⟩ : GenOut)))).error
        = some "boom") :=
  ⟨(claim_C5 "H TEST" (Except.error ("boom", (⟨[], [], [], []⟩ : GenOut)))).1,
   ((claim_C5 "H TEST" (Except.error ("boom", (⟨[], [], [], []⟩ : GenOut)))).2.2
      "boom" ⟨[], [], [], []⟩ rfl).1,
   ((claim_C5 "H TEST" (Except.error ("boom", (⟨[], [], [], []⟩ : GenOut)))).2.2
      "boom" ⟨[], [], [], []⟩ rfl).2⟩

/-- Claim C7 counterexample: the input consisting of the single line of
eight spaces followed by `11` has no calculation entries, yet its
condition-marker set is `{11}` — the analyzer collects the [7,11) field of
every line of length at least 6, not only of calculation entries, so the
claimed set equality fails. -/
theorem claim_C7_counterexample :
    (analyze_traditional_rpg "        11").calculation_specs = [] ∧
    (analyze_traditional_rpg "        11").indicators = ["11"] := by
  exact ⟨rfl, rfl⟩

/-- Claim C7 (amended): the distinct condition markers of the analysis are
exactly the non-blank trimmed [7,11) fields of all lines of length at least
6, whatever their record type, in first-occurrence order and without
duplicates. -/
theorem claim_C7_amended (code : String) :
    (analyze_traditional_rpg code).indicators = collectIndicators code ∧
    (analyze_traditional_rpg code).indicators.Nodup := by
  have h1 : (analyze_traditional_rpg code).indicators = collectIndicators code := by
    show (analyzeLines initialAnalysis 1 (pySplitLines code)).indicators = _
    rw [analyzeLines_indicators]
    rfl
  refine ⟨h1, ?_⟩
  rw [h1]
  exact foldl_collect_nodup _ [] List.nodup_nil

/-- Claim C8 counterexample: the single file-entry line of five spaces and
`F` yields one file spec but no file-declaration statement, because its
file-type code (empty) upper-cases to none of I, O, U; and the input file
line `     FCUSTFILE I` carries no keyed-access indication anywhere yet its
declaration is tagged KEYED. -/
theorem claim_C8_counterexample :
    (analyze_traditional_rpg "     F").file_specs.length = 1 ∧
    (pySplitLines (convert_to_freeform "     F" none).converted_code).countP
      (fun l => pyStartsWith l "DCL-F") = 0 ∧
    (analyze_traditional_rpg "     FCUSTFILE I").file_specs =
      [⟨1, "     FCUSTFILE I", "USTFILE", "I", ""⟩] ∧
    (convert_to_freeform "     FCUSTFILE I" none).converted_code =
      "DCL-F USTFILE DISK(*EXT) USAGE(*INPUT) KEYED;\n\n// Main processing logic" := by
  exact ⟨rfl, rfl, rfl, rfl⟩

/-- Claim C8 (amended): each file entry yields exactly one declaration when
its file-type code upper-cases to I, O or U — usage input, output, update
respectively — and none otherwise; the declaration is tagged KEYED exactly
when the upper-cased code is I or U (the keyed-access columns of the
original line are never consulted); the converter's file loop emits these
lines and one conversion note per entry, in entry order. -/
theorem claim_C8_amended (fs : FileSpec) (st : GenOut) (fss : List FileSpec) :
    (pyUpper fs.file_type = "I" →
      fileSpecLines fs =
        ["DCL-F " ++ fs.filename ++ " DISK(*EXT) USAGE(*INPUT) KEYED;"]) ∧
    (pyUpper fs.file_type = "O" →
      fileSpecLines fs =
        ["DCL-F " ++ fs.filename ++ " DISK(*EXT) USAGE(*OUTPUT);"]) ∧
    (pyUpper fs.file_type = "U" →
      fileSpecLines fs =
        ["DCL-F " ++ fs.filename ++ " DISK(*EXT) USAGE(*UPDATE) KEYED;"]) ∧
    (pyUpper fs.file_type ∉ (["I", "O", "U"] : List String) →
      fileSpecLines fs = []) ∧
    ((convertFileSpecs st fss).lines = st.lines ++ fss.flatMap fileSpecLines) ∧
    ((convertFileSpecs st fss).notes =
      st.notes ++ fss.map (fun fs2 => "Converted F-spec for " ++ fs2.filename)) := by
  refine ⟨?_, ?_, ?_, ?_, convertFileSpecs_lines fss st, convertFileSpecs_notes fss st⟩
  · intro h; simp [fileSpecLines, h]
  · intro h; simp [fileSpecLines, h]
  · intro h; simp [fileSpecLines, h]
  · intro h
    simp only [List.mem_cons, List.not_mem_nil, or_false, not_or] at h
    simp [fileSpecLines, h.1, h.2.1, h.2.2]

theorem claim_C8_amended_witness :
    (fileSpecLines ⟨1, "", "CUSTF", "I", "DISK"⟩ =
      ["DCL-F " ++ "CUSTF" ++ " DISK(*EXT) USAGE(*INPUT) KEYED;"]) ∧
    (fileSpecLines ⟨2, "", "OUTF", "o", "DISK"⟩ =
      ["DCL-F " ++ "OUTF" ++ " DISK(*EXT) USAGE(*OUTPUT);"]) ∧
    (fileSpecLines ⟨3, "", "XF", "E", "DISK"⟩ = []) :=
  ⟨(claim_C8_amended ⟨1, "", "CUSTF", "I", "DISK"⟩ ⟨[], [], [], []⟩ []).1 (by decide),
   (claim_C8_amended ⟨2, "", "OUTF", "o", "DISK"⟩ ⟨[], [], [], []⟩ []).2.1 (by decide),
   (claim_C8_amended ⟨3, "", "XF", "E", "DISK"⟩ ⟨[], [], [], []⟩ []).2.2.2.1 (by decide)⟩

/-- Claim C9: the complexity classification is a pure function of the four
counts — equal counts give equal classes for any two inputs — and it is
monotone in each count with respect to the order low < medium < high. -/
theorem claim_C9 (f c i s f2 c2 i2 s2 : Nat)
    (hf : f ≤ f2) (hc : c ≤ c2) (hi : i ≤ i2) (hs : s ≤ s2) :
    classOrd (classifyComplexity (complexityScore f c i s)) ≤
      classOrd (classifyComplexity (complexityScore f2 c2 i2 s2)) ∧
    (∀ code code2 : String,
      (analyze_traditional_rpg code).file_specs.length =
        (analyze_traditional_rpg code2).file_specs.length →
      (analyze_traditional_rpg code).calculation_specs.length =
        (analyze_traditional_rpg code2).calculation_specs.length →
      (analyze_traditional_rpg code).indicators.length =
        (analyze_traditional_rpg code2).indicators.length →
      (analyze_traditional_rpg code).subroutines.length =
        (analyze_traditional_rpg code2).subroutines.length →
      (analyze_traditional_rpg code).conversion_complexity =
        (analyze_traditional_rpg code2).conversion_complexity) := by
  refine ⟨classify_mono _ _ (score_mono f c i s f2 c2 i2 s2 hf hc hi hs), ?_⟩
  intro code code2 h1 h2 h3 h4
  rw [analyze_conversion_complexity code, analyze_conversion_complexity code2,
    h1, h2, h3, h4]

theorem claim_C9_witness :
    (1 ≤ 2) ∧
    classOrd (classifyComplexity (complexityScore 1 2 3 4)) ≤
      classOrd (classifyComplexity (complexityScore 2 2 3 4)) :=
  ⟨by norm_num,
   (claim_C9 1 2 3 4 2 2 3 4 (by norm_num) (le_refl 2) (le_refl 3) (le_refl 4)).1⟩

/-- Claim C10: a line of length at least 6 whose 6th character is a
lowercase h, f, d, i, c or o is given no record type by the structural
analyzer (no per-tag entry is appended), while the code-block extractor's
traditional-block state machine counts it as tagged and emits it inside a
traditional code block. -/
theorem claim_C10 (a : Analysis) (n : Nat) (line : String)
    (hlen : 6 ≤ line.length)
    (hlow : pySlice line 5 6 ∈ (["h", "f", "d", "i", "c", "o"] : List String)) :
    ((processLine a n line).control_specs = a.control_specs ∧
     (processLine a n line).file_specs = a.file_specs ∧
     (processLine a n line).definition_specs = a.definition_specs ∧
     (processLine a n line).input_specs = a.input_specs ∧
     (processLine a n line).calculation_specs = a.calculation_specs ∧
     (processLine a n line).output_specs = a.output_specs) ∧
    isTradTagged line = true ∧
    runTradMachine [line] = [[line]] := by
  have hup : pySlice line 5 6 ∉ (["H", "F", "D", "I", "C", "O"] : List String) := by
    simp only [List.mem_cons, List.not_mem_nil, or_false] at hlow ⊢
    rcases hlow with h | h | h | h | h | h <;> rw [h] <;> decide
  have htag : isTradTagged line = true := by
    unfold isTradTagged
    rw [if_neg (by omega : ¬ line.length < 6)]
    simp only [List.mem_cons, List.not_mem_nil, or_false] at hlow
    rcases hlow with h | h | h | h | h | h <;> rw [h] <;> decide
  refine ⟨processLine_other a n line hlen hup, htag, ?_⟩
  simp [runTradMachine, tradStep, htag]

theorem claim_C10_witness :
    (6 ≤ ("     c" : String).length) ∧
    (processLine initialAnalysis 1 "     c").calculation_specs = [] ∧
    isTradTagged "     c" = true ∧
    runTradMachine ["     c"] = [["     c"]] := by
  have h := claim_C10 initialAnalysis 1 "     c" (by decide) (by decide)
  exact ⟨by decide, by rw [h.1.2.2.2.2.1]; rfl, h.2.1, h.2.2⟩

end RPG

namespace Client

/-! ## Lemmas about the orchestration loop -/

/-- When the model requests tool calls on every invocation, every loop
iteration takes the tool-call branch and the fuel runs out at the sentinel. -/
theorem chatLoop_sentinel (model : List Msg → ModelMsg)
    (runTool : String → String → Except String String)
    (h : ∀ t, (model t).tool_calls ≠ []) :
    ∀ (n : Nat) (t : List Msg),
      chatLoop model runTool n t = "Maximum tool calls reached" := by
  intro n
  induction n with
  | zero => intro t; rfl
  | succ k ih =>
      intro t
      show (match roundStep model runTool t with
            | Sum.inl answer => answer
            | Sum.inr msgs2 => chatLoop model runTool k msgs2) =
        "Maximum tool calls reached"
      unfold roundStep
      dsimp only
      rw [if_neg (h t)]
      exact ih _

/-- When the model requests tool calls on every invocation, every round of
the loop completes: the round trace is defined at every depth. -/
theorem transcriptAfterRounds_isSome (model : List Msg → ModelMsg)
    (runTool : String → String → Except String String)
    (h : ∀ t, (model t).tool_calls ≠ []) (t : List Msg) :
    ∀ n : Nat, (transcriptAfterRounds model runTool t n).isSome := by
  intro n
  induction n with
  | zero => rfl
  | succ k ih =>
      show (match transcriptAfterRounds model runTool t k with
            | some t2 =>
                match roundStep model runTool t2 with
                | Sum.inl _ => none
                | Sum.inr t3 => some t3
            | none => none).isSome
      obtain ⟨t2, ht2⟩ := Option.isSome_iff_exists.mp ih
      rw [ht2]
      unfold roundStep
      dsimp only
      rw [if_neg (h t2)]
      rfl

/-- When the eviction condition fires, the kept transcript has at most the
five-message tail size. -/
theorem evict_length_le (t : List Msg)
    (h : count_tokens (joinContents t) > max_tokens * 8 / 10) :
    (evict t).length ≤ 5 := by
  unfold evict
  rw [if_pos h, List.length_drop]
  omega

theorem toolResultMsg_id (runTool : String → String → Except String String)
    (tc : ToolCall) : (toolResultMsg runTool tc).tool_call_id = some tc.id := by
  unfold toolResultMsg
  cases runTool tc.name tc.arguments <;> rfl

theorem toolResultMsg_role (runTool : String → String → Except String String)
    (tc : ToolCall) : (toolResultMsg runTool tc).role = Role.tool := by
  unfold toolResultMsg
  cases runTool tc.name tc.arguments <;> rfl

/-- No tool-result message of a round carries a call id absent from the
round's requested calls. -/
theorem toolResults_filter_nil (runTool : String → String → Except String String)
    (cid : String) :
    ∀ xs : List ToolCall, cid ∉ xs.map ToolCall.id →
      (toolResults runTool xs).filter (fun m => m.tool_call_id == some cid) = [] := by
  intro xs
  induction xs with
  | nil => intro _; rfl
  | cons y ys ih =>
      intro hnot
      simp only [List.map_cons, List.mem_cons, not_or] at hnot
      show List.filter _ (toolResultMsg runTool y :: toolResults runTool ys) = []
      rw [List.filter_cons]
      have hy : ((toolResultMsg runTool y).tool_call_id == some cid) = false := by
        rw [toolResultMsg_id]
        simp [hnot.1, Ne.symm hnot.1]
      rw [hy]
      simp only [Bool.false_eq_true, if_false]
      exact ih hnot.2

/-- Among a round's tool results with pairwise-distinct call ids, the one
answering a failing call is exactly the single error message with that id. -/
theorem toolResults_filter_error (runTool : String → String → Except String String)
    (tc : ToolCall) (e : String)
    (herr : runTool tc.name tc.arguments = Except.error e) :
    ∀ tcs : List ToolCall, tc ∈ tcs → (tcs.map ToolCall.id).Nodup →
      (toolResults runTool tcs).filter (fun m => m.tool_call_id == some tc.id) =
        [⟨Role.tool, "Error: " ++ e, [], some tc.id⟩] := by
  intro tcs
  induction tcs with
  | nil => intro hmem _; cases hmem
  | cons x xs ih =>
      intro hmem hnd
      rw [List.map_cons, List.nodup_cons] at hnd
      show List.filter _ (toolResultMsg runTool x :: toolResults runTool xs) = _
      rw [List.filter_cons]
      rcases List.mem_cons.mp hmem with heq | hmemxs
      · subst heq
        have hx : ((toolResultMsg runTool tc).tool_call_id == some tc.id) = true := by
          rw [toolResultMsg_id]
          simp
        rw [hx]
        have htail : (toolResults runTool xs).filter
            (fun m => m.tool_call_id == some tc.id) = [] :=
          toolResults_filter_nil runTool tc.id xs hnd.1
        rw [if_pos rfl, htail]
        unfold toolResultMsg
        rw [herr]
      · have hxne : x.id ≠ tc.id := by
          intro hcontra
          exact hnd.1 (hcontra ▸ List.mem_map_of_mem ToolCall.id hmemxs)
        have hx : ((toolResultMsg runTool x).tool_call_id == some tc.id) = false := by
          rw [toolResultMsg_id]
          simp [hxne]
        rw [hx]
        simp only [Bool.false_eq_true, if_false]
        exact ih hmemxs hnd.2

/-! ## Claim theorems (orchestration loop) -/

/-- Claim C3: if the model requests at least one tool call on every
invocation, the loop performs all `maxRounds` rounds, terminates, and
returns the sentinel text instead of a model answer; and whenever the
estimated token count of the transcript exceeds 80% of the global budget at
the end of a round, the evicted transcript never exceeds the five-message
tail. -/
theorem claim_C3 (model : List Msg → ModelMsg)
    (runTool : String → String → Except String String)
    (messages : List Msg) (maxRounds : Nat)
    (h : ∀ t, (model t).tool_calls ≠ []) :
    chat_completion model runTool messages maxRounds =
      "Maximum tool calls reached" ∧
    (transcriptAfterRounds model runTool (truncateAll messages) maxRounds).isSome ∧
    (∀ t, count_tokens (joinContents t) > max_tokens * 8 / 10 →
      (evict t).length ≤ 5) :=
  ⟨chatLoop_sentinel model runTool h maxRounds (truncateAll messages),
   transcriptAfterRounds_isSome model runTool h (truncateAll messages) maxRounds,
   fun t ht => evict_length_le t ht⟩

theorem claim_C3_witness :
    chat_completion oneCallModel okTool [⟨Role.user, "hi", [], none⟩] 3 =
      "Maximum tool calls reached" :=
  (claim_C3 oneCallModel okTool [⟨Role.user, "hi", [], none⟩] 3
    (fun _ => List.cons_ne_nil _ _)).1

/-- Claim C4: when a tool call's argument parsing or invocation fails, the
loop substitutes exactly one tool-role message with that call's id carrying
the error text, still produces one result message per requested call, and
the round continues into the next one rather than raising. -/
theorem claim_C4 (runTool : String → String → Except String String)
    (tcs : List ToolCall) (tc : ToolCall) (e : String)
    (hmem : tc ∈ tcs) (hnd : (tcs.map ToolCall.id).Nodup)
    (herr : runTool tc.name tc.arguments = Except.error e) :
    ((toolResults runTool tcs).length = tcs.length) ∧
    ((toolResults runTool tcs).filter (fun m => m.tool_call_id == some tc.id) =
      [⟨Role.tool, "Error: " ++ e, [], some tc.id⟩]) ∧
    (∀ m ∈ toolResults runTool tcs, m.role = Role.tool) ∧
    (∀ (model : List Msg → ModelMsg) (t : List Msg),
      (model t).tool_calls = tcs →
      roundStep model runTool t =
        Sum.inr (evict ((t ++ [asstMsg (model t)]) ++ toolResults runTool tcs))) := by
  refine ⟨List.length_map tcs (toolResultMsg runTool), ?_, ?_, ?_⟩
  · exact toolResults_filter_error runTool tc e herr tcs hmem hnd
  · intro m hm
    obtain ⟨tc2, _, htc2⟩ := List.mem_map.mp hm
    rw [← htc2]
    exact toolResultMsg_role runTool tc2
  · intro model t hmodel
    unfold roundStep
    dsimp only
    rw [hmodel, if_neg (List.ne_nil_of_mem hmem)]

theorem claim_C4_witness :
    ((⟨"2", "bad", "a"⟩ : ToolCall) ∈
      ([⟨"1", "good", "a"⟩, ⟨"2", "bad", "a"⟩] : List ToolCall)) ∧
    ((toolResults failingTool [⟨"1", "good", "a"⟩, ⟨"2", "bad", "a"⟩]).length = 2) ∧
    ((toolResults failingTool [⟨"1", "good", "a"⟩, ⟨"2", "bad", "a"⟩]).filter
        (fun m => m.tool_call_id == some "2") =
      [⟨Role.tool, "Error: " ++ "boom", [], some "2"⟩]) := by
  have h := claim_C4 failingTool [⟨"1", "good", "a"⟩, ⟨"2", "bad", "a"⟩]
    ⟨"2", "bad", "a"⟩ "boom" (by decide) (by decide) rfl
  exact ⟨by decide, h.1, h.2.1⟩

/-! ## Lemmas about causal ordering and the eviction counterexample

The length facts about `bigX`/`bigY` are established through `congrArg`
glue rather than evaluation: the kernel cannot normalise a 205000-character
string. -/

theorem bigX_length : bigX.length = 205000 := by
  show (List.replicate 205000 'x').length = 205000
  exact List.length_replicate _ _

theorem bigY_length : bigY.length = 205000 := by
  show (List.replicate 205000 'y').length = 205000
  exact List.length_replicate _ _

theorem count_tokens_le (c : String) (n m : Nat) (hc : c.length = n)
    (h : n / 4 ≤ m) : count_tokens c ≤ m := by
  show c.length / 4 ≤ m
  rw [hc]
  exact h

theorem count_tokens_gt (c : String) (n m : Nat) (hc : c.length = n)
    (h : n / 4 > m) : count_tokens c > m := by
  show c.length / 4 > m
  rw [hc]
  exact h

theorem trunc_keep (c : String) (m : Nat) (h : count_tokens c ≤ m) :
    truncate_content c m = c := by
  unfold truncate_content
  rw [if_pos h]

theorem trunc_bigX : truncate_content bigX 100000 = bigX :=
  trunc_keep bigX 100000 (count_tokens_le bigX 205000 100000 bigX_length (by norm_num))

theorem trunc_bigY : truncate_content bigY 100000 = bigY :=
  trunc_keep bigY 100000 (count_tokens_le bigY 205000 100000 bigY_length (by norm_num))

/-- The two large initial messages are each under the 100000-token
per-message limit, so the pre-loop truncation leaves them unchanged. -/
theorem truncateAll_cexInit : truncateAll cexInit = cexInit := by
  unfold truncateAll cexInit
  simp only [List.map_cons, List.map_nil]
  rw [trunc_bigX, trunc_bigY]

theorem cexT2_eq :
    (cexInit ++ [asstMsg (cexModel5 cexInit)]) ++ toolResults okTool cexCalls =
      cexT2 := by
  rfl

theorem cexT2_joined : joinContents cexT2 =
    bigX ++ " " ++ (bigY ++ " " ++ ("" ++ " " ++ ("r" ++ " " ++ ("r" ++ " " ++
      ("r" ++ " " ++ ("r" ++ " " ++ "r")))))) := rfl

theorem cexT2_joined_length : (joinContents cexT2).length = 410012 := by
  rw [cexT2_joined]
  simp only [String.length_append, bigX_length, bigY_length]
  rfl

theorem evict_drop (t : List Msg)
    (h : count_tokens (joinContents t) > max_tokens * 8 / 10) :
    evict t = t.drop (t.length - 5) := by
  unfold evict
  rw [if_pos h]

/-- The joined transcript of round one estimates to 102503 tokens, over the
102400-token threshold, so the eviction keeps only the last five messages:
the five tool results, dropping the assistant message that requested them. -/
theorem evict_cexT2 : evict cexT2 = cexBad := by
  rw [evict_drop cexT2
    (count_tokens_gt _ 410012 _ cexT2_joined_length (by norm_num [max_tokens]))]
  rfl

theorem cex_round1 :
    transcriptAfterRounds cexModel5 okTool cexInit 1 = some cexBad := by
  show (match roundStep cexModel5 okTool cexInit with
        | Sum.inl _ => none
        | Sum.inr t => some t) = some cexBad
  have hne : (cexModel5 cexInit).tool_calls ≠ [] := by decide
  have hcalls : (cexModel5 cexInit).tool_calls = cexCalls := rfl
  unfold roundStep
  dsimp only
  rw [if_neg hne, hcalls, cexT2_eq, evict_cexT2]

theorem causalOkFrom_append (l1 : List Msg) :
    ∀ (p l2 : List Msg),
      causalOkFrom p (l1 ++ l2) =
        (causalOkFrom p l1 && causalOkFrom (p ++ l1) l2) := by
  induction l1 with
  | nil => intro p l2; simp [causalOkFrom]
  | cons x xs ih =>
      intro p l2
      show (!isUnmatchedTool p x && causalOkFrom (p ++ [x]) (xs ++ l2)) = _
      rw [ih]
      have hpp : (p ++ [x]) ++ xs = p ++ x :: xs := by simp
      rw [hpp, ← Bool.and_assoc]
      rfl

theorem causalOkFrom_toolResults (runTool : String → String → Except String String)
    (sub : List ToolCall) :
    ∀ (p : List Msg) (a : Msg), a ∈ p → a.role = Role.assistant →
      (∀ tc ∈ sub, tc ∈ a.tool_calls) →
      causalOkFrom p (toolResults runTool sub) = true := by
  induction sub with
  | nil => intro p a _ _ _; rfl
  | cons x xs ih =>
      intro p a ha haRole hsub
      show (!isUnmatchedTool p (toolResultMsg runTool x) &&
            causalOkFrom (p ++ [toolResultMsg runTool x]) (toolResults runTool xs))
          = true
      have hreq : (a.role == Role.assistant &&
          a.tool_calls.any (fun tc2 => tc2.id == x.id)) = true := by
        rw [haRole]
        have hin : a.tool_calls.any (fun tc2 => tc2.id == x.id) = true := by
          rw [List.any_eq_true]
          exact ⟨x, hsub x (List.mem_cons_self x xs), by simp⟩
        rw [hin]
        rfl
      have hany : p.any (fun q => q.role == Role.assistant &&
          q.tool_calls.any (fun tc2 => tc2.id == x.id)) = true := by
        rw [List.any_eq_true]
        exact ⟨a, ha, hreq⟩
      have h1 : isUnmatchedTool p (toolResultMsg runTool x) = false := by
        unfold isUnmatchedTool
        rw [toolResultMsg_id]
        show ((toolResultMsg runTool x).role == Role.tool &&
          !p.any (fun q => q.role == Role.assistant &&
            q.tool_calls.any (fun tc2 => tc2.id == x.id))) = false
        rw [hany]
        simp
      rw [h1]
      simp only [Bool.not_false, Bool.true_and]
      exact ih (p ++ [toolResultMsg runTool x]) a (List.mem_append_left _ ha)
        haRole (fun tc htc => hsub tc (List.mem_cons_of_mem _ htc))

/-- Claim C6 counterexample: starting from two large user messages (a
state satisfying the causal-ordering invariant, unchanged by the pre-loop
truncation), one round in which the model requests five tool calls pushes
the transcript over the eviction threshold; `current_messages[-5:]` keeps
exactly the five tool-result messages and drops the assistant message that
requested them, so the reached transcript violates the invariant. -/
theorem claim_C6_counterexample :
    causalOk (truncateAll cexInit) = true ∧
    transcriptAfterRounds cexModel5 okTool (truncateAll cexInit) 1 =
      some cexBad ∧
    causalOk cexBad = false := by
  rw [truncateAll_cexInit]
  exact ⟨rfl, cex_round1, by decide⟩

/-- Claim C6 (amended): appending a round's messages preserves the
causal-ordering invariant — after the assistant message carrying the
requested calls and the round's tool results are appended, every tool-role
message is still preceded by an assistant message requesting its call id —
and eviction preserves the relative order of the kept messages (the evicted
transcript is a suffix of the transcript); eviction does not, however,
preserve the precedence invariant itself, as the counterexample shows. -/
theorem claim_C6_amended (runTool : String → String → Except String String)
    (t : List Msg) (m : ModelMsg) (h : causalOk t = true) :
    causalOk ((t ++ [asstMsg m]) ++ toolResults runTool m.tool_calls) = true ∧
    List.IsSuffix (evict t) t := by
  constructor
  · unfold causalOk at h ⊢
    rw [causalOkFrom_append, causalOkFrom_append]
    simp only [List.nil_append]
    rw [h]
    have h2 : causalOkFrom t [asstMsg m] = true := by
      show (!isUnmatchedTool t (asstMsg m) && true) = true
      have : isUnmatchedTool t (asstMsg m) = false := by
        unfold isUnmatchedTool asstMsg
        rfl
      rw [this]
      rfl
    rw [h2]
    have h3 : causalOkFrom (t ++ [asstMsg m]) (toolResults runTool m.tool_calls)
        = true :=
      causalOkFrom_toolResults runTool m.tool_calls (t ++ [asstMsg m]) (asstMsg m)
        (List.mem_append_right t (List.mem_singleton_self _))
        rfl (fun tc htc => htc)
    rw [h3]
    rfl
  · unfold evict
    split_ifs
    · exact List.drop_suffix _ _
    · exact List.suffix_refl _

theorem claim_C6_amended_witness :
    causalOk (([] ++ [asstMsg ⟨"", [⟨"i", "n", "a"⟩]⟩]) ++
      toolResults okTool (ModelMsg.mk "" [⟨"i", "n", "a"⟩]).tool_calls) = true :=
  (claim_C6_amended okTool [] ⟨"", [⟨"i", "n", "a"⟩]⟩ rfl).1

end Client


